import Mathlib

/-!
Verification development for the turtle-toolkit cycle-accurate simulator
(`src/turtle_toolkit/simulator.py`).

The pipeline controller (`Simulator`) is translated from the source.  The
external collaborator modules (register file, instruction/data memory,
program counter, ALU, decode unit) are not part of the given source tree;
their observable request/response contracts are modelled from the spec
(sections 2, 4 and 6).  Programs are embedded pre-decoded: the decode unit
is a pure function (spec section 6), so the instruction memory here holds
`DecodedInstruction` records and decoding is the identity.
-/

namespace TurtleSim

/-- Modelled from the spec: the instruction address bus width (spec section 3,
"Bus values"; the concrete configuration module is an external collaborator).
Program-counter arithmetic wraps at `2 ^ ADDRESS_WIDTH`. -/
def ADDRESS_WIDTH : Nat := 8

/-- Modelled from the spec: the status register holds the condition flags
(carry, signed overflow) produced by the last ALU operation (spec section 3
and glossary). -/
structure StatusValue where
  signed_overflow : Bool := false
  carry : Bool := false
  deriving DecidableEq, Repr

/-- Modelled from the spec: branch condition codes test the status register
flags (spec sections 4.6 and 8). -/
inductive BranchCondition where
  | carrySet
  | carryClear
  | overflowSet
  | overflowClear
  deriving DecidableEq, Repr

/-- Modelled from the spec: evaluation of a branch condition against a status
register value (spec section 4.6). -/
def evalBranchCondition : BranchCondition → StatusValue → Bool
  | .carrySet, st => st.carry
  | .carryClear, st => !st.carry
  | .overflowSet, st => st.signed_overflow
  | .overflowClear, st => !st.signed_overflow

/-- A classified, field-extracted instruction record, as produced by the
Decode Unit (spec section 3, `DecodedInstruction`; the controller reads
exactly these fields in `simulator.py`). -/
structure DecodedInstruction where
  halt_instruction : Bool := false
  alu_instruction : Bool := false
  alu_immediate_instruction : Bool := false
  alu_function : Nat := 0
  register_file_instruction : Bool := false
  register_file_set : Bool := false
  register_file_get : Bool := false
  register_file_put : Bool := false
  memory_instruction : Bool := false
  memory_load : Bool := false
  memory_store : Bool := false
  branch_instruction : Bool := false
  branch_condition : BranchCondition := .carrySet
  jump_instruction : Bool := false
  immediate_jump : Bool := false
  relative_jump : Bool := false
  immediate_data_value : Nat := 0
  immediate_address_value : Nat := 0
  register_index : Nat := 0
  deriving DecidableEq, Repr

/-- The instruction record fetched from unwritten instruction memory: all
category flags false. -/
def defaultInstruction : DecodedInstruction := {}

/-- Modelled from the spec: the register file index of the data-memory-address
register (DMAR, spec glossary). -/
def DMAR_INDEX : Nat := 6

/-- Modelled from the spec: the register file index of the
instruction-memory-address register (IMAR, spec glossary). -/
def IMAR_INDEX : Nat := 7

/-- Modelled from the spec: the register file holds the accumulator, indexed
registers (including DMAR and IMAR), and the status register, with staged
"next" values applied by a separate commit operation (spec sections 2, 4.7
and 6).  Registers are an association list keyed by index; unwritten
registers read 0. -/
structure RegisterFileState where
  acc : Nat := 0
  regs : List (Nat × Nat) := []
  status : StatusValue := {}
  nextAcc : Option Nat := none
  nextRegs : List (Nat × Nat) := []
  nextStatus : Option StatusValue := none
  deriving DecidableEq, Repr

def RegisterFileState.get_acc_value (rf : RegisterFileState) : Nat := rf.acc

def RegisterFileState.get_register_value (rf : RegisterFileState) (i : Nat) : Nat :=
  (rf.regs.lookup i).getD 0

def RegisterFileState.set_next_acc_value (rf : RegisterFileState) (v : Nat) : RegisterFileState :=
  { rf with nextAcc := some v }

def RegisterFileState.set_next_register_value (rf : RegisterFileState) (i v : Nat) :
    RegisterFileState :=
  { rf with nextRegs := (i, v) :: rf.nextRegs }

def RegisterFileState.set_next_status_register_value (rf : RegisterFileState)
    (overflow carry : Bool) : RegisterFileState :=
  { rf with nextStatus := some { signed_overflow := overflow, carry := carry } }

def RegisterFileState.get_status_register_value (rf : RegisterFileState) : StatusValue :=
  rf.status

def RegisterFileState.get_dmar_value (rf : RegisterFileState) : Nat :=
  rf.get_register_value DMAR_INDEX

def RegisterFileState.get_imar_value (rf : RegisterFileState) : Nat :=
  rf.get_register_value IMAR_INDEX

/-- Modelled from the spec: the register file commit operation makes every
staged value the currently-committed value and clears the staged slots
(spec section 4.7).  More recent staged register writes shadow older ones. -/
def RegisterFileState.update_state (rf : RegisterFileState) : RegisterFileState :=
  { acc := rf.nextAcc.getD rf.acc
    regs := rf.nextRegs ++ rf.regs
    status := rf.nextStatus.getD rf.status
    nextAcc := none
    nextRegs := []
    nextStatus := none }

/-- Modelled from the spec: instruction memory with a two-phase request/ready
protocol and a fixed access latency; readiness is re-polled every cycle and
latency progress happens at commit (spec sections 4.2 and 6).  The memory
holds pre-decoded instructions. -/
structure InstructionMemoryState where
  mem : List DecodedInstruction := []
  latency : Nat := 0
  pendingAddr : Option Nat := none
  counter : Nat := 0
  deriving DecidableEq, Repr

def InstructionMemoryState.request_fetch (im : InstructionMemoryState) (a : Nat) :
    InstructionMemoryState :=
  if im.pendingAddr = some a then im
  else { im with pendingAddr := some a, counter := im.latency }

def InstructionMemoryState.fetch_ready (im : InstructionMemoryState) : Bool :=
  im.pendingAddr.isSome && im.counter == 0

def InstructionMemoryState.get_fetch_result (im : InstructionMemoryState) : DecodedInstruction :=
  match im.pendingAddr with
  | some a => im.mem.getD a defaultInstruction
  | none => defaultInstruction

def InstructionMemoryState.update_state (im : InstructionMemoryState) : InstructionMemoryState :=
  match im.pendingAddr with
  | none => im
  | some _ =>
    if im.counter = 0 then { im with pendingAddr := none }
    else { im with counter := im.counter - 1 }

/-- Modelled from the spec: data memory with independent load and store
channels, each with the two-phase request/ready protocol and fixed latency
(spec sections 4.5 and 6).  A completed store is applied to the memory array
at commit.  Unwritten addresses read 0. -/
structure DataMemoryState where
  mem : List (Nat × Nat) := []
  latency : Nat := 0
  pendingLoad : Option Nat := none
  loadCounter : Nat := 0
  pendingStore : Option (Nat × Nat) := none
  storeCounter : Nat := 0
  deriving DecidableEq, Repr

def DataMemoryState.request_load (dm : DataMemoryState) (a : Nat) : DataMemoryState :=
  if dm.pendingLoad = some a then dm
  else { dm with pendingLoad := some a, loadCounter := dm.latency }

def DataMemoryState.load_ready (dm : DataMemoryState) : Bool :=
  dm.pendingLoad.isSome && dm.loadCounter == 0

def DataMemoryState.get_load_result (dm : DataMemoryState) : Nat :=
  match dm.pendingLoad with
  | some a => (dm.mem.lookup a).getD 0
  | none => 0

def DataMemoryState.request_store (dm : DataMemoryState) (a v : Nat) : DataMemoryState :=
  if dm.pendingStore = some (a, v) then dm
  else { dm with pendingStore := some (a, v), storeCounter := dm.latency }

def DataMemoryState.store_complete (dm : DataMemoryState) : Bool :=
  dm.pendingStore.isSome && dm.storeCounter == 0

def DataMemoryState.update_state (dm : DataMemoryState) : DataMemoryState :=
  let dm1 :=
    match dm.pendingLoad with
    | none => dm
    | some _ =>
      if dm.loadCounter = 0 then { dm with pendingLoad := none }
      else { dm with loadCounter := dm.loadCounter - 1 }
  match dm1.pendingStore with
  | none => dm1
  | some (a, v) =>
    if dm1.storeCounter = 0 then
      { dm1 with mem := (a, v) :: dm1.mem, pendingStore := none }
    else { dm1 with storeCounter := dm1.storeCounter - 1 }

/-- Modelled from the spec: the program counter holds the next-fetch address,
stages a next value via increment / conditional branch / jump, carries a
stall latch, and applies the staged value at commit unless stalled
(spec sections 4.6 and 6). -/
structure ProgramCounterState where
  pc : Nat := 0
  nextPc : Option Nat := none
  stall : Bool := false
  deriving DecidableEq, Repr

def ProgramCounterState.get_current_instruction_address (p : ProgramCounterState) : Nat := p.pc

def ProgramCounterState.set_stall (p : ProgramCounterState) (b : Bool) : ProgramCounterState :=
  { p with stall := b }

def ProgramCounterState.increment (p : ProgramCounterState) : ProgramCounterState :=
  { p with nextPc := some ((p.pc + 1) % 2 ^ ADDRESS_WIDTH) }

def ProgramCounterState.conditionally_branch (p : ProgramCounterState) (st : StatusValue)
    (target : Nat) (cond : BranchCondition) : ProgramCounterState :=
  if evalBranchCondition cond st then { p with nextPc := some target } else p.increment

def ProgramCounterState.jump_relative (p : ProgramCounterState) (offset : Nat) :
    ProgramCounterState :=
  { p with nextPc := some ((p.pc + offset) % 2 ^ ADDRESS_WIDTH) }

def ProgramCounterState.jump_absolute (p : ProgramCounterState) (a : Nat) : ProgramCounterState :=
  { p with nextPc := some a }

def ProgramCounterState.update_state (p : ProgramCounterState) : ProgramCounterState :=
  if p.stall then p else { p with pc := p.nextPc.getD p.pc, nextPc := none }

/-- Modelled from the spec: ALU outputs (result, signed overflow, carry)
(spec sections 2 and 6). -/
structure ALUOutputs where
  result : Nat
  signed_overflow : Bool
  carry_flag : Bool
  deriving DecidableEq, Repr

/-- Modelled from the spec: the ALU is a pure stateless function of
(accumulator, operand B, function code) (spec section 6).  Its internal
arithmetic is out of scope, so the controller is parameterized by it. -/
def ALU : Type := Nat → Nat → Nat → ALUOutputs

/-- `SimulatorState` bookkeeping fields (`simulator.py`, `SimulatorState`).
The externally-owned module states are held directly as fields of
`Simulator` below, rather than through the source's name-keyed mapping. -/
structure SimulatorState where
  cycle_count : Nat := 0
  halted : Bool := false
  stalled : Bool := false
  deriving DecidableEq, Repr

/-- `SimulationResult` (`simulator.py`). -/
structure SimulationResult where
  cycle_count : Nat
  state : SimulatorState
  deriving DecidableEq, Repr

/-- The simulator: controller bookkeeping state plus the module states.
The `commits` field is instrumentation counting invocations of the commit
phase (`_update_module_states`); no controller decision reads it. -/
structure Simulator where
  state : SimulatorState := {}
  register_file : RegisterFileState := {}
  instruction_memory : InstructionMemoryState := {}
  data_memory : DataMemoryState := {}
  program_counter : ProgramCounterState := {}
  commits : Nat := 0
  deriving DecidableEq, Repr

/-- The fatal internal-consistency faults raised by the controller
(`RuntimeError` in `_handle_register_operation` / `_handle_memory_stage`). -/
inductive SimError where
  | invalidRegisterOperation
  | invalidMemoryOperation
  deriving DecidableEq, Repr

/-- Terminal error outcomes of `run_until_halt`: a propagated fatal fault, or
`SimulationTimeout` carrying the cycle count reached. -/
inductive RunError where
  | fault : SimError → RunError
  | timeout : Nat → RunError
  deriving DecidableEq, Repr

/-- Decidable equality for `Except`, so that concrete run outcomes can be
checked by evaluation. -/
instance {ε α : Type} [DecidableEq ε] [DecidableEq α] : DecidableEq (Except ε α) :=
  fun x y =>
    match x, y with
    | .ok a, .ok b =>
      if h : a = b then .isTrue (h ▸ rfl) else .isFalse (fun hh => h (Except.ok.inj hh))
    | .error e, .error f =>
      if h : e = f then .isTrue (h ▸ rfl) else .isFalse (fun hh => h (Except.error.inj hh))
    | .ok _, .error _ => .isFalse (fun hh => Except.noConfusion hh)
    | .error _, .ok _ => .isFalse (fun hh => Except.noConfusion hh)

/-- `Simulator._handle_fetch_stage`: request a fetch at the current program
counter address, poll readiness; on not-ready set the stall flags and abort
(return `false`). -/
def Simulator.handle_fetch_stage (s : Simulator) : Simulator × Bool :=
  let addr := s.program_counter.get_current_instruction_address
  let im := s.instruction_memory.request_fetch addr
  if !im.fetch_ready then
    ({ s with instruction_memory := im
              state := { s.state with stalled := true }
              program_counter := s.program_counter.set_stall true }, false)
  else
    ({ s with instruction_memory := im
              state := { s.state with stalled := false }
              program_counter := s.program_counter.set_stall false }, true)

/-- `Simulator._handle_decode_stage`: decode the fetched instruction (decode
is the identity on the pre-decoded embedding); on a halt instruction set
`halted` and abort (return `none`). -/
def Simulator.handle_decode_stage (s : Simulator) : Simulator × Option DecodedInstruction :=
  let instr := s.instruction_memory.get_fetch_result
  if instr.halt_instruction then
    ({ s with state := { s.state with halted := true } }, none)
  else
    (s, some instr)

/-- `Simulator._get_alu_operand_b`. -/
def Simulator.get_alu_operand_b (s : Simulator) (d : DecodedInstruction) : Nat :=
  if d.alu_immediate_instruction then d.immediate_data_value
  else s.register_file.get_register_value d.register_index

/-- `Simulator._execute_alu_operation`: invoke the ALU and stage the result as
the next accumulator and the flags as the next status register value. -/
def Simulator.execute_alu_operation (alu : ALU) (s : Simulator) (d : DecodedInstruction)
    (operand_b : Nat) : Simulator × Bool :=
  let outs := alu s.register_file.get_acc_value operand_b d.alu_function
  let rf := (s.register_file.set_next_acc_value outs.result).set_next_status_register_value
    outs.signed_overflow outs.carry_flag
  ({ s with register_file := rf }, true)

/-- `Simulator._handle_register_operation`: dispatch on the register-file
sub-op; an unrecognized sub-op raises the fatal fault. -/
def Simulator.handle_register_operation (s : Simulator) (d : DecodedInstruction) :
    Except SimError (Simulator × Bool) :=
  if d.register_file_set then
    .ok ({ s with register_file := s.register_file.set_next_acc_value d.immediate_data_value },
      true)
  else if d.register_file_get then
    .ok ({ s with register_file :=
        s.register_file.set_next_acc_value (s.register_file.get_register_value d.register_index) },
      true)
  else if d.register_file_put then
    .ok ({ s with register_file :=
        s.register_file.set_next_register_value d.register_index s.register_file.get_acc_value },
      true)
  else
    .error .invalidRegisterOperation

/-- `Simulator._handle_execute_stage`: ALU ops, then register-file ops, else
pass through. -/
def Simulator.handle_execute_stage (alu : ALU) (s : Simulator) (d : DecodedInstruction) :
    Except SimError (Simulator × Bool) :=
  if d.alu_instruction then
    .ok (Simulator.execute_alu_operation alu s d (Simulator.get_alu_operand_b s d))
  else if d.register_file_instruction then
    Simulator.handle_register_operation s d
  else
    .ok (s, true)

/-- `Simulator._handle_memory_load`: request a load at the DMAR address, poll
readiness; on not-ready stall, else stage the loaded value as next
accumulator. -/
def Simulator.handle_memory_load (s : Simulator) : Simulator × Bool :=
  let dm := s.data_memory.request_load s.register_file.get_dmar_value
  if !dm.load_ready then
    ({ s with data_memory := dm
              state := { s.state with stalled := true }
              program_counter := s.program_counter.set_stall true }, false)
  else
    ({ s with data_memory := dm
              state := { s.state with stalled := false }
              program_counter := s.program_counter.set_stall false
              register_file := s.register_file.set_next_acc_value dm.get_load_result }, true)

/-- `Simulator._handle_memory_store`: request a store of the committed
accumulator at the DMAR address, poll completion; on not-complete stall. -/
def Simulator.handle_memory_store (s : Simulator) : Simulator × Bool :=
  let dm := s.data_memory.request_store s.register_file.get_dmar_value
    s.register_file.get_acc_value
  if !dm.store_complete then
    ({ s with data_memory := dm
              state := { s.state with stalled := true }
              program_counter := s.program_counter.set_stall true }, false)
  else
    ({ s with data_memory := dm
              state := { s.state with stalled := false }
              program_counter := s.program_counter.set_stall false }, true)

/-- `Simulator._handle_memory_stage`: applies only to memory instructions; an
unrecognized memory sub-op raises the fatal fault. -/
def Simulator.handle_memory_stage (s : Simulator) (d : DecodedInstruction) :
    Except SimError (Simulator × Bool) :=
  if !d.memory_instruction then .ok (s, true)
  else if d.memory_load then .ok (Simulator.handle_memory_load s)
  else if d.memory_store then .ok (Simulator.handle_memory_store s)
  else .error .invalidMemoryOperation

/-- `Simulator._handle_jump_instruction`. -/
def Simulator.handle_jump_instruction (s : Simulator) (d : DecodedInstruction) : Simulator :=
  if d.immediate_jump then
    { s with program_counter := s.program_counter.jump_relative d.immediate_address_value }
  else if d.relative_jump then
    { s with program_counter :=
        s.program_counter.jump_relative s.register_file.get_imar_value }
  else
    { s with program_counter :=
        s.program_counter.jump_absolute s.register_file.get_imar_value }

/-- `Simulator._update_program_counter`. -/
def Simulator.update_program_counter (s : Simulator) (d : DecodedInstruction) : Simulator :=
  if d.branch_instruction then
    let p := s.program_counter.conditionally_branch s.register_file.get_status_register_value
      d.immediate_address_value d.branch_condition
    { s with program_counter := p }
  else if d.jump_instruction then
    Simulator.handle_jump_instruction s d
  else
    { s with program_counter := s.program_counter.increment }

/-- `Simulator._update_module_states`: the commit phase, invoking each
module's commit operation.  `commits` is instrumentation counting its
invocations. -/
def Simulator.update_module_states (s : Simulator) : Simulator :=
  { s with register_file := s.register_file.update_state
           instruction_memory := s.instruction_memory.update_state
           data_memory := s.data_memory.update_state
           program_counter := s.program_counter.update_state
           commits := s.commits + 1 }

/-- `Simulator._execute_cycle`: Fetch, Decode, Execute, Memory, PC-update,
each stage able to short-circuit the rest of the cycle. -/
def Simulator.execute_cycle (alu : ALU) (s : Simulator) : Except SimError Simulator :=
  match Simulator.handle_fetch_stage s with
  | (s1, false) => .ok s1
  | (s1, true) =>
    match Simulator.handle_decode_stage s1 with
    | (s2, none) => .ok s2
    | (s2, some d) =>
      match Simulator.handle_execute_stage alu s2 d with
      | .error e => .error e
      | .ok (s3, false) => .ok s3
      | .ok (s3, true) =>
        match Simulator.handle_memory_stage s3 d with
        | .error e => .error e
        | .ok (s4, false) => .ok s4
        | .ok (s4, true) => .ok (Simulator.update_program_counter s4 d)

/-- The run loop bound test: `num_cycles is not None and cycles_run >= num_cycles`. -/
def boundReached : Option Nat → Nat → Bool
  | none, _ => false
  | some n, k => n ≤ k

/-- `Simulator.run`, drained to completion (as `run_until_halt` consumes it):
per iteration, check the bound, execute one cycle, increment the cycle count
unconditionally, break without a snapshot if halted, otherwise record the
snapshot and invoke the commit phase.  Returns the snapshot list and the
final simulator; `fuel` bounds the recursion and `none` means it was
exhausted. -/
def Simulator.run_aux (alu : ALU) (s : Simulator) (num_cycles : Option Nat)
    (cycles_run : Nat) : Nat → Option (Except SimError (List SimulatorState × Simulator))
  | 0 => none
  | fuel + 1 =>
    if boundReached num_cycles cycles_run then some (.ok ([], s))
    else
      match Simulator.execute_cycle alu s with
      | .error e => some (.error e)
      | .ok s1 =>
        let s2 := { s1 with state := { s1.state with cycle_count := s1.state.cycle_count + 1 } }
        if s2.state.halted then some (.ok ([], s2))
        else
          match Simulator.run_aux alu (Simulator.update_module_states s2) num_cycles
              (cycles_run + 1) fuel with
          | none => none
          | some (.error e) => some (.error e)
          | some (.ok (snaps, sf)) => some (.ok (s2.state :: snaps, sf))

/-- `Simulator.run` from a fresh `cycles_run = 0` counter. -/
def Simulator.run (alu : ALU) (s : Simulator) (num_cycles : Option Nat) (fuel : Nat) :
    Option (Except SimError (List SimulatorState × Simulator)) :=
  Simulator.run_aux alu s num_cycles 0 fuel

/-- `Simulator.run_until_halt`: drain the run loop; if the bound was reached
without halting raise `SimulationTimeout` with the cycle count, else return
the `SimulationResult`; fatal faults propagate. -/
def Simulator.run_until_halt (alu : ALU) (s : Simulator) (max_cycles : Option Nat)
    (fuel : Nat) : Option (Except RunError SimulationResult) :=
  match Simulator.run alu s max_cycles fuel with
  | none => none
  | some (.error e) => some (.error (.fault e))
  | some (.ok (_, sf)) =>
    if boundReached max_cycles sf.state.cycle_count && !sf.state.halted then
      some (.error (.timeout sf.state.cycle_count))
    else
      some (.ok { cycle_count := sf.state.cycle_count, state := sf.state })

/-- `Simulator.reset` followed by `load_program`/`load_binary`: a fresh
simulator with the given pre-decoded program side-loaded and the given
modelled memory latencies. -/
def resetSimulator (program : List DecodedInstruction) (instr_latency data_latency : Nat) :
    Simulator :=
  { instruction_memory := { mem := program, latency := instr_latency }
    data_memory := { latency := data_latency } }

/-- The snapshot list produced by a drained run, when it succeeds. -/
def runSnapshots (alu : ALU) (s : Simulator) (num_cycles : Option Nat) (fuel : Nat) :
    Option (List SimulatorState) :=
  match Simulator.run alu s num_cycles fuel with
  | some (.ok (snaps, _)) => some snaps
  | _ => none

/-- The final simulator of a drained run, when it succeeds. -/
def runFinal (alu : ALU) (s : Simulator) (num_cycles : Option Nat) (fuel : Nat) :
    Option Simulator :=
  match Simulator.run alu s num_cycles fuel with
  | some (.ok (_, sf)) => some sf
  | _ => none

/-- The `SimulationResult` of a drained run, when it succeeds. -/
def runResult (alu : ALU) (s : Simulator) (num_cycles : Option Nat) (fuel : Nat) :
    Option SimulationResult :=
  match Simulator.run alu s num_cycles fuel with
  | some (.ok (_, sf)) => some { cycle_count := sf.state.cycle_count, state := sf.state }
  | _ => none

/-- Projects the simulator out of a successful `execute_cycle` outcome. -/
def okOr (x : Except SimError Simulator) : Simulator :=
  match x with
  | .ok s => s
  | .error _ => {}

/-- The instruction the decode stage will see this cycle: the fetch result
after the fetch stage's request at the current program counter address. -/
def fetchedInstruction (s : Simulator) : DecodedInstruction :=
  (s.instruction_memory.request_fetch
    s.program_counter.get_current_instruction_address).get_fetch_result

/-- No values are staged in the register file or program counter: the state
in which every cycle begins under the staged/commit discipline. -/
def StagedEmpty (s : Simulator) : Prop :=
  s.register_file.nextAcc = none ∧ s.register_file.nextRegs = [] ∧
    s.register_file.nextStatus = none ∧ s.program_counter.nextPc = none

/-- The decode unit's category-exclusivity contract, restricted to what the
memory stage relies on: a memory instruction is neither an ALU nor a
register-file instruction (spec section 3). -/
def MemoryExclusive (d : DecodedInstruction) : Prop :=
  d.memory_instruction = true →
    d.alu_instruction = false ∧ d.register_file_instruction = false

/-- Decidability of `StagedEmpty`, for concrete witnesses. -/
instance (s : Simulator) : Decidable (StagedEmpty s) :=
  inferInstanceAs (Decidable (_ ∧ _ ∧ _ ∧ _))

/-- Decidability of `MemoryExclusive`, for concrete witnesses. -/
instance (d : DecodedInstruction) : Decidable (MemoryExclusive d) :=
  inferInstanceAs (Decidable (_ → _ ∧ _))

/-- A concrete ALU used to instantiate witnesses: 8-bit addition with carry
out; the controller theorems are parametric in the ALU. -/
def addALU : ALU := fun a b _ =>
  { result := (a + b) % 2 ^ 8
    signed_overflow := false
    carry_flag := decide (2 ^ 8 ≤ a + b) }

/-- The SET-accumulator instruction of the claim C2 program. -/
def setAccInstruction (v : Nat) : DecodedInstruction :=
  { register_file_instruction := true, register_file_set := true, immediate_data_value := v }

/-- The HALT instruction. -/
def haltInstruction : DecodedInstruction := { halt_instruction := true }

/-- The claim C2 two-instruction program loaded from reset with no memory
latency (no stalls). -/
def c2Sim : Simulator := resetSimulator [setAccInstruction 5, haltInstruction] 0 0

/-- The claim C2 program with an instruction memory latency of one cycle, so
the first fetch stalls. -/
def c1Sim : Simulator := resetSimulator [setAccInstruction 5, haltInstruction] 1 0

/-- Starting state for the claim C3 witness: an empty (all-default, no-HALT)
program, both memory latencies zero. -/
def c3Start : Simulator := resetSimulator [] 0 0

/-- The snapshots of running the claim C3 witness for 10 cycles. -/
def c3Snaps : List SimulatorState := (runSnapshots addALU c3Start (some 10) 11).getD []

/-- The final simulator of running the claim C3 witness for 10 cycles. -/
def c3Final : Simulator := (runFinal addALU c3Start (some 10) 11).getD {}

/-- The halted simulator obtained by draining the claim C2 program to its
HALT. -/
def c4Sim : Simulator := (runFinal addALU c2Sim none 3).getD {}

/-- The outcome of invoking the run loop once more on the halted `c4Sim`. -/
def c4After : Simulator := (runFinal addALU c4Sim none 5).getD {}

/-- The pure `put` instruction used by the claim C5 witness. -/
def c5Put : DecodedInstruction :=
  { register_file_instruction := true, register_file_put := true, register_index := 2 }

/-- Starting state for the claim C5 witness: accumulator 9, `put` program. -/
def c5Sim : Simulator :=
  { resetSimulator [c5Put] 0 0 with register_file := { acc := 9 } }

/-- The ALU-immediate instruction used by the claim C6 witness. -/
def c6Instr : DecodedInstruction :=
  { alu_instruction := true, alu_immediate_instruction := true, immediate_data_value := 7 }

/-- Starting state for the claim C7 witness: PC 3, IMAR (register 7)
holding 20. -/
def c7Sim : Simulator :=
  { resetSimulator [] 0 0 with
      register_file := { regs := [(IMAR_INDEX, 20)] }
      program_counter := { pc := 3 } }

/-- The register-relative jump instruction of the claim C7 witness. -/
def c7Jump : DecodedInstruction := { jump_instruction := true, relative_jump := true }

/-- The unrecognized instruction of the claim C8 witness: a memory
instruction that is neither a load nor a store, with all register-file
sub-ops clear. -/
def c8Instr : DecodedInstruction := { memory_instruction := true }

/-- Starting state for the claim C8 witness. -/
def c8Sim : Simulator := resetSimulator [c8Instr] 0 0

/-- The memory-load instruction of the claim C9 witness. -/
def c9Load : DecodedInstruction := { memory_instruction := true, memory_load := true }

/-- Starting state for the claim C9 witness: a load program with a data
memory latency of 2, so the load stalls twice before becoming ready. -/
def c9Sim : Simulator := resetSimulator [c9Load, haltInstruction] 0 2

/-- The memory-store instruction of the claim C9 witness. -/
def c9Store : DecodedInstruction := { memory_instruction := true, memory_store := true }

/-- Starting state for the store half of the claim C9 witness: a store
program with a data memory latency of 2, so the store stalls twice before
completing. -/
def c9StoreSim : Simulator := resetSimulator [c9Store, haltInstruction] 0 2


/-- The fetch stage leaves the cycle counter, the halted flag, the commit
counter, the register file and the data memory untouched. -/
theorem handle_fetch_stage_fields (s : Simulator) :
    (Simulator.handle_fetch_stage s).1.state.cycle_count = s.state.cycle_count ∧
    (Simulator.handle_fetch_stage s).1.state.halted = s.state.halted ∧
    (Simulator.handle_fetch_stage s).1.commits = s.commits ∧
    (Simulator.handle_fetch_stage s).1.register_file = s.register_file ∧
    (Simulator.handle_fetch_stage s).1.data_memory = s.data_memory := by
  unfold Simulator.handle_fetch_stage
  dsimp only
  split <;> simp

/-- The decode stage leaves the cycle counter, the commit counter, the
register file, the data memory and the instruction memory untouched; the
halted flag is sticky, and when an instruction is returned the simulator is
returned unchanged. -/
theorem handle_decode_stage_fields (s : Simulator) :
    (Simulator.handle_decode_stage s).1.state.cycle_count = s.state.cycle_count ∧
    (Simulator.handle_decode_stage s).1.commits = s.commits ∧
    (Simulator.handle_decode_stage s).1.register_file = s.register_file ∧
    (s.state.halted = true → (Simulator.handle_decode_stage s).1.state.halted = true) ∧
    (∀ d, (Simulator.handle_decode_stage s).2 = some d → (Simulator.handle_decode_stage s).1 = s) := by
  unfold Simulator.handle_decode_stage
  dsimp only
  split <;> simp

/-- The execute stage only stages register file values: every other component
of the simulator is untouched, and it always reports ready. -/
theorem handle_execute_stage_fields (alu : ALU) (s : Simulator) (d : DecodedInstruction)
    (s3 : Simulator) (b : Bool) (h : Simulator.handle_execute_stage alu s d = .ok (s3, b)) :
    s3.state = s.state ∧ s3.commits = s.commits ∧
      s3.instruction_memory = s.instruction_memory ∧
      s3.program_counter = s.program_counter ∧ s3.data_memory = s.data_memory ∧ b = true := by
  unfold Simulator.handle_execute_stage Simulator.execute_alu_operation
    Simulator.handle_register_operation at h
  repeat' split at h
  all_goals
    first
      | (simp only [Except.ok.injEq, Prod.mk.injEq] at h
         obtain ⟨rfl, rfl⟩ := h
         simp)
      | simp_all

/-- The memory stage leaves the cycle counter, the halted flag, the commit
counter and the instruction memory untouched. -/
theorem handle_memory_stage_fields (s : Simulator) (d : DecodedInstruction)
    (s4 : Simulator) (b : Bool) (h : Simulator.handle_memory_stage s d = .ok (s4, b)) :
    s4.state.cycle_count = s.state.cycle_count ∧ s4.state.halted = s.state.halted ∧
      s4.commits = s.commits ∧ s4.instruction_memory = s.instruction_memory := by
  unfold Simulator.handle_memory_stage Simulator.handle_memory_load
    Simulator.handle_memory_store at h
  dsimp only at h
  repeat' split at h
  all_goals
    first
      | (simp only [Except.ok.injEq, Prod.mk.injEq] at h
         obtain ⟨rfl, rfl⟩ := h
         simp)
      | simp_all

/-- A memory stage that reports a stall has staged nothing: the register file
is untouched, the stalled flag is set, and the program counter is only
stall-latched. -/
theorem handle_memory_stage_stall (s : Simulator) (d : DecodedInstruction)
    (s4 : Simulator) (h : Simulator.handle_memory_stage s d = .ok (s4, false)) :
    s4.register_file = s.register_file ∧ s4.state.stalled = true ∧
      s4.program_counter = s.program_counter.set_stall true ∧
      d.memory_instruction = true := by
  unfold Simulator.handle_memory_stage Simulator.handle_memory_load
    Simulator.handle_memory_store at h
  dsimp only at h
  repeat' split at h
  all_goals
    first
      | (simp only [Except.ok.injEq, Prod.mk.injEq] at h
         obtain ⟨rfl, h2⟩ := h
         simp_all)
      | simp_all

/-- The PC-update stage only stages a next program counter value. -/
theorem update_program_counter_fields (s : Simulator) (d : DecodedInstruction) :
    (Simulator.update_program_counter s d).state = s.state ∧
    (Simulator.update_program_counter s d).commits = s.commits ∧
    (Simulator.update_program_counter s d).register_file = s.register_file ∧
    (Simulator.update_program_counter s d).instruction_memory = s.instruction_memory ∧
    (Simulator.update_program_counter s d).data_memory = s.data_memory := by
  unfold Simulator.update_program_counter Simulator.handle_jump_instruction
  repeat' split
  all_goals simp

/-- The commit phase leaves the bookkeeping state untouched and counts one
more commit. -/
theorem update_module_states_fields (s : Simulator) :
    (Simulator.update_module_states s).state = s.state ∧
    (Simulator.update_module_states s).commits = s.commits + 1 := by
  simp [Simulator.update_module_states]

/-- One pipeline cycle never changes the cycle counter or the commit counter,
and the halted flag is sticky across it. -/
theorem execute_cycle_state (alu : ALU) (s s' : Simulator)
    (h : Simulator.execute_cycle alu s = .ok s') :
    s'.state.cycle_count = s.state.cycle_count ∧ s'.commits = s.commits ∧
      (s.state.halted = true → s'.state.halted = true) := by
  unfold Simulator.execute_cycle at h
  split at h
  next s1 hf =>
    have hff := handle_fetch_stage_fields s
    rw [hf] at hff
    cases h
    exact ⟨hff.1, hff.2.2.1, fun hh => by rw [hff.2.1]; exact hh⟩
  next s1 hf =>
    have hff := handle_fetch_stage_fields s
    rw [hf] at hff
    split at h
    next s2 hd =>
      have hdf := handle_decode_stage_fields s1
      rw [hd] at hdf
      cases h
      refine ⟨by rw [hdf.1, hff.1], by rw [hdf.2.1, hff.2.2.1], fun hh => ?_⟩
      exact hdf.2.2.2.1 (by rw [hff.2.1]; exact hh)
    next s2 d hd =>
      have hdf := handle_decode_stage_fields s1
      rw [hd] at hdf
      have hs2 : s2 = s1 := hdf.2.2.2.2 d rfl
      subst hs2
      split at h
      · exact absurd h (by simp)
      next s3 hex =>
        have hef := handle_execute_stage_fields alu s2 d s3 false hex
        cases h
        refine ⟨by rw [hef.1, hff.1], by rw [hef.2.1, hff.2.2.1], fun hh => ?_⟩
        rw [hef.1, hff.2.1]; exact hh
      next s3 hex =>
        have hef := handle_execute_stage_fields alu s2 d s3 true hex
        split at h
        · exact absurd h (by simp)
        next s4 hm =>
          have hmf := handle_memory_stage_fields s3 d s4 false hm
          cases h
          refine ⟨by rw [hmf.1, hef.1, hff.1], by rw [hmf.2.2.1, hef.2.1, hff.2.2.1],
            fun hh => ?_⟩
          rw [hmf.2.1, hef.1, hff.2.1]; exact hh
        next s4 hm =>
          have hmf := handle_memory_stage_fields s3 d s4 true hm
          have hpf := update_program_counter_fields s4 d
          cases h
          refine ⟨by rw [hpf.1, hmf.1, hef.1, hff.1],
            by rw [hpf.2.1, hmf.2.2.1, hef.2.1, hff.2.2.1], fun hh => ?_⟩
          rw [hpf.1, hmf.2.1, hef.1, hff.2.1]; exact hh

/-- A memory stage that reports ready either did not apply (leaving the
stalled flag as it was) or cleared the stalled flag. -/
theorem handle_memory_stage_ready (s : Simulator) (d : DecodedInstruction)
    (s4 : Simulator) (h : Simulator.handle_memory_stage s d = .ok (s4, true)) :
    s4.state.stalled = s.state.stalled ∨ s4.state.stalled = false := by
  unfold Simulator.handle_memory_stage Simulator.handle_memory_load
    Simulator.handle_memory_store at h
  dsimp only at h
  repeat' split at h
  all_goals
    first
      | (simp only [Except.ok.injEq, Prod.mk.injEq] at h
         obtain ⟨rfl, h2⟩ := h
         simp_all)
      | simp_all

/-- On an instruction that is neither an ALU nor a register-file operation,
the execute stage passes the simulator through unchanged. -/
theorem handle_execute_stage_passthrough (alu : ALU) (s : Simulator)
    (d : DecodedInstruction) (halu : d.alu_instruction = false)
    (hrf : d.register_file_instruction = false) :
    Simulator.handle_execute_stage alu s d = .ok (s, true) := by
  simp [Simulator.handle_execute_stage, halu, hrf]

/-- Committing a register file with no staged values leaves it unchanged. -/
theorem RegisterFileState.update_state_of_empty (rf : RegisterFileState)
    (ha : rf.nextAcc = none) (hr : rf.nextRegs = []) (hs : rf.nextStatus = none) :
    rf.update_state = rf := by
  cases rf
  simp_all [RegisterFileState.update_state]

/-- Committing a stall-latched program counter leaves it unchanged. -/
theorem ProgramCounterState.update_state_of_stall (p : ProgramCounterState)
    (h : p.stall = true) : p.update_state = p := by
  simp [ProgramCounterState.update_state, h]

/-- Draining a bounded run that ends with `halted` still false advances the
cycle counter by exactly the remaining budget of the bound. -/
theorem run_aux_cycle_count (alu : ALU) (N : Nat) :
    ∀ fuel k s snaps sf,
      Simulator.run_aux alu s (some N) k fuel = some (.ok (snaps, sf)) →
      sf.state.halted = false →
      sf.state.cycle_count = s.state.cycle_count + (N - k) := by
  intro fuel
  induction fuel with
  | zero =>
    intro k s snaps sf h hh
    simp [Simulator.run_aux] at h
  | succ fuel ih =>
    intro k s snaps sf h hh
    rw [Simulator.run_aux] at h
    by_cases hb : boundReached (some N) k = true
    · rw [if_pos hb] at h
      simp only [Option.some.injEq, Except.ok.injEq, Prod.mk.injEq] at h
      obtain ⟨-, rfl⟩ := h
      have hNk : N ≤ k := by simpa [boundReached] using hb
      omega
    · rw [if_neg hb] at h
      have hNk : ¬N ≤ k := by simpa [boundReached] using hb
      cases hc : Simulator.execute_cycle alu s with
      | error e => rw [hc] at h; simp at h
      | ok s1 =>
        rw [hc] at h
        dsimp only at h
        split at h
        · simp only [Option.some.injEq, Except.ok.injEq, Prod.mk.injEq] at h
          obtain ⟨-, rfl⟩ := h
          simp_all
        · split at h
          · simp at h
          · simp at h
          next snaps1 sf1 heq =>
            simp only [Option.some.injEq, Except.ok.injEq, Prod.mk.injEq] at h
            have hupd := update_module_states_fields
              { s1 with state := { s1.state with cycle_count := s1.state.cycle_count + 1 } }
            have hcyc := (execute_cycle_state alu s s1 hc).1
            have hih := ih (k + 1) _ snaps1 sf1 heq (by rw [h.2]; exact hh)
            rw [← h.2, hih, hupd.1]
            dsimp only
            omega

/-- The fetch result after a request at the current program counter address
is the instruction memory word at that address, whatever the pending
state was. -/
theorem fetchedInstruction_eq (s : Simulator) :
    fetchedInstruction s =
      s.instruction_memory.mem.getD s.program_counter.pc defaultInstruction := by
  unfold fetchedInstruction ProgramCounterState.get_current_instruction_address
    InstructionMemoryState.request_fetch
  by_cases h : s.instruction_memory.pendingAddr = some s.program_counter.pc
  · rw [if_pos h]
    unfold InstructionMemoryState.get_fetch_result
    rw [h]
  · rw [if_neg h]
    unfold InstructionMemoryState.get_fetch_result
    rfl

/-- Committing an instruction memory whose fetch is ready clears the pending
request and leaves everything else unchanged. -/
theorem InstructionMemoryState.update_state_of_ready (im : InstructionMemoryState)
    (h : im.fetch_ready = true) :
    im.update_state = { im with pendingAddr := none } := by
  unfold InstructionMemoryState.fetch_ready at h
  simp only [Bool.and_eq_true, beq_iff_eq, Option.isSome_iff_exists] at h
  obtain ⟨⟨a, ha⟩, hc⟩ := h
  unfold InstructionMemoryState.update_state
  rw [ha]
  simp [hc]

/-- A fetch request changes neither the memory contents nor the configured
latency. -/
theorem InstructionMemoryState.request_fetch_mem (im : InstructionMemoryState) (a : Nat) :
    (im.request_fetch a).mem = im.mem ∧ (im.request_fetch a).latency = im.latency := by
  unfold InstructionMemoryState.request_fetch
  split <;> simp

/-- Claim C1, amended: the commit phase is not skipped on stalled cycles (the
run loop invokes it after every cycle that yields, see the counterexample);
what holds is that no architectural state staged during a stalled cycle
becomes committed.  For a cycle starting with empty staged slots, whose
fetched instruction satisfies the decode unit's category-exclusivity
contract, that ends in a stall: the register file is untouched by the cycle,
and even after the commit phase runs, the committed register file and the
committed program counter are unchanged. -/
theorem claim_C1 (alu : ALU) (s s' : Simulator) (h1 : StagedEmpty s)
    (h2 : MemoryExclusive (fetchedInstruction s))
    (hrun : Simulator.execute_cycle alu s = .ok s')
    (hstall : s'.state.stalled = true) :
    s'.register_file = s.register_file ∧
    (Simulator.update_module_states s').register_file = s.register_file ∧
    (Simulator.update_module_states s').program_counter.pc = s.program_counter.pc := by
  obtain ⟨hna, hnr, hns, hnp⟩ := h1
  unfold MemoryExclusive fetchedInstruction at h2
  unfold Simulator.execute_cycle at hrun
  split at hrun
  next s1 hf =>
    replace hrun : s1 = s' := by simpa using hrun
    subst hrun
    unfold Simulator.handle_fetch_stage at hf
    dsimp only at hf
    split at hf
    · simp only [Prod.mk.injEq] at hf
      obtain ⟨rfl, -⟩ := hf
      refine ⟨rfl, ?_, ?_⟩
      · simp only [Simulator.update_module_states]
        exact RegisterFileState.update_state_of_empty _ hna hnr hns
      · simp [Simulator.update_module_states, ProgramCounterState.update_state,
          ProgramCounterState.set_stall]
    · simp at hf
  next s1 hf =>
    unfold Simulator.handle_fetch_stage at hf
    dsimp only at hf
    split at hf
    · simp at hf
    next hready =>
      simp only [Prod.mk.injEq] at hf
      obtain ⟨rfl, -⟩ := hf
      split at hrun
      next s2 hd =>
        replace hrun : s2 = s' := by simpa using hrun
        subst hrun
        unfold Simulator.handle_decode_stage at hd
        dsimp only at hd
        split at hd
        · simp only [Prod.mk.injEq] at hd
          obtain ⟨rfl, -⟩ := hd
          simp at hstall
        · simp at hd
      next s2 d hd =>
        unfold Simulator.handle_decode_stage at hd
        dsimp only at hd
        split at hd
        · simp at hd
        next hhalt =>
          simp only [Prod.mk.injEq, Option.some.injEq] at hd
          obtain ⟨rfl, hdeq⟩ := hd
          rw [hdeq] at h2
          split at hrun
          · simp at hrun
          next s3 hex =>
            have hb := (handle_execute_stage_fields alu _ _ s3 false hex).2.2.2.2.2
            simp at hb
          next s3 hex =>
            split at hrun
            · simp at hrun
            next s4 hm =>
              replace hrun : s4 = s' := by simpa using hrun
              subst hrun
              have hms := handle_memory_stage_stall _ _ _ hm
              obtain ⟨halu, hrf⟩ := h2 hms.2.2.2
              rw [handle_execute_stage_passthrough alu _ _ halu hrf] at hex
              rw [Except.ok.injEq, Prod.mk.injEq] at hex
              obtain ⟨hex, -⟩ := hex
              subst hex
              refine ⟨by simpa using hms.1, ?_, ?_⟩
              · rw [Simulator.update_module_states]
                dsimp only
                rw [hms.1]
                exact RegisterFileState.update_state_of_empty _ hna hnr hns
              · rw [Simulator.update_module_states]
                dsimp only
                rw [hms.2.2.1]
                simp [ProgramCounterState.update_state, ProgramCounterState.set_stall]
            next s4 hm =>
              replace hrun : Simulator.update_program_counter s4 d = s' := by
                simpa using hrun
              subst hrun
              have hst : s4.state.stalled = false := by
                rcases handle_memory_stage_ready _ _ _ hm with hc | hc
                · rw [hc, (handle_execute_stage_fields alu _ _ s3 true hex).1]
                · exact hc
              rw [(update_program_counter_fields s4 d).1] at hstall
              rw [hst] at hstall
              exact absurd hstall (by simp)

/-- Counterexample to claim C1 as stated: cycle 1 stalls at fetch (its
snapshot reports `stalled = true`), yet the run loop still invokes the
commit phase for that cycle - the commit-invocation counter reads 1 after
the drained run, not 0. -/
theorem claim_C1_counterexample :
    runSnapshots addALU c1Sim (some 1) 2 =
      some [{ cycle_count := 1, halted := false, stalled := true }] ∧
    (runFinal addALU c1Sim (some 1) 2).map Simulator.commits = some 1 := by
  decide

/-- Witness for claim C1: the first cycle of `c1Sim` stalls at fetch, and
neither the cycle nor the following commit phase changes the committed
register file or program counter. -/
theorem claim_C1_witness :
    (okOr (Simulator.execute_cycle addALU c1Sim)).register_file = c1Sim.register_file ∧
    (Simulator.update_module_states
        (okOr (Simulator.execute_cycle addALU c1Sim))).register_file = c1Sim.register_file ∧
    (Simulator.update_module_states
        (okOr (Simulator.execute_cycle addALU c1Sim))).program_counter.pc =
      c1Sim.program_counter.pc :=
  claim_C1 addALU c1Sim (okOr (Simulator.execute_cycle addALU c1Sim)) (by decide) (by decide)
    (by decide) (by decide)

/-- Claim C2: for the program [SET acc 5, HALT] run from reset with no
stalls, the drained run loop yields exactly one snapshot, after cycle 1,
with cycle count 1 and halted false; cycle 2 decodes HALT, sets halted,
increments the cycle count to 2 and ends without a second snapshot; the
final `SimulationResult` has cycle count 2 and a halted state, and
`run_until_halt` returns it normally. -/
theorem claim_C2 :
    runSnapshots addALU c2Sim none 3 =
      some [{ cycle_count := 1, halted := false, stalled := false }] ∧
    runResult addALU c2Sim none 3 =
      some { cycle_count := 2
             state := { cycle_count := 2, halted := true, stalled := false } } ∧
    Simulator.run_until_halt addALU c2Sim none 3 =
      some (.ok { cycle_count := 2
                  state := { cycle_count := 2, halted := true, stalled := false } }) := by
  decide

/-- Claim C3: for every program state, cycle bound N and sufficient fuel, if
the drained run loop ends with `halted` still false then the bound was
reached (the cycle count advanced by exactly N) and `run_until_halt` raises
the watchdog timeout carrying the cycle count reached; if `halted` became
true at or before the bound, `run_until_halt` returns a `SimulationResult`
normally instead of raising. -/
theorem claim_C3 (alu : ALU) (s : Simulator) (N fuel : Nat)
    (snaps : List SimulatorState) (sf : Simulator)
    (hrun : Simulator.run alu s (some N) fuel = some (.ok (snaps, sf))) :
    (sf.state.halted = false →
      sf.state.cycle_count = s.state.cycle_count + N ∧
      Simulator.run_until_halt alu s (some N) fuel =
        some (.error (.timeout sf.state.cycle_count))) ∧
    (sf.state.halted = true →
      Simulator.run_until_halt alu s (some N) fuel =
        some (.ok { cycle_count := sf.state.cycle_count, state := sf.state })) := by
  constructor
  · intro hh
    have hcc := run_aux_cycle_count alu N fuel 0 s snaps sf hrun hh
    have hcc' : sf.state.cycle_count = s.state.cycle_count + N := by omega
    refine ⟨hcc', ?_⟩
    unfold Simulator.run_until_halt
    rw [hrun]
    have hbr : boundReached (some N) sf.state.cycle_count = true := by
      simp only [boundReached, decide_eq_true_eq]
      omega
    simp [hbr, hh]
  · intro hh
    unfold Simulator.run_until_halt
    rw [hrun]
    simp [hh]

/-- Witness for claim C3: a program with no HALT instruction, run from reset
with bound 10, makes `run_until_halt` fail with the watchdog timeout
carrying cycle count 10. -/
theorem claim_C3_witness :
    Simulator.run_until_halt addALU c3Start (some 10) 11 =
      some (.error (.timeout 10)) := by
  have h : Simulator.run addALU c3Start (some 10) 11 = some (.ok (c3Snaps, c3Final)) := by
    decide
  have h2 := (claim_C3 addALU c3Start 10 11 c3Snaps c3Final h).1 (by decide)
  exact h2.2.trans (by decide)

/-- Claim C4, amended: once `halted` is true, any invocation of the run loop
yields no snapshot and never invokes the commit phase (the commit counter is
unchanged), and at most one further pipeline cycle executes before the loop
observes `halted` and stops (the cycle count grows by at most 1); within a
single invocation no further stage execution follows that observation. -/
theorem claim_C4 (alu : ALU) (s : Simulator) (nc : Option Nat) (fuel : Nat)
    (h : s.state.halted = true) :
    ∀ snaps sf, Simulator.run alu s nc fuel = some (.ok (snaps, sf)) →
      snaps = [] ∧ sf.commits = s.commits ∧ sf.state.halted = true ∧
        sf.state.cycle_count ≤ s.state.cycle_count + 1 := by
  intro snaps sf hrun
  cases fuel with
  | zero => simp [Simulator.run, Simulator.run_aux] at hrun
  | succ fuel =>
    unfold Simulator.run at hrun
    rw [Simulator.run_aux] at hrun
    by_cases hb : boundReached nc 0 = true
    · rw [if_pos hb] at hrun
      simp only [Option.some.injEq, Except.ok.injEq, Prod.mk.injEq] at hrun
      obtain ⟨rfl, rfl⟩ := hrun
      exact ⟨rfl, rfl, h, by omega⟩
    · rw [if_neg hb] at hrun
      cases hc : Simulator.execute_cycle alu s with
      | error e => rw [hc] at hrun; simp at hrun
      | ok s1 =>
        rw [hc] at hrun
        have hpres := execute_cycle_state alu s s1 hc
        have hhalt1 : s1.state.halted = true := hpres.2.2 h
        dsimp only at hrun
        split at hrun
        · simp only [Option.some.injEq, Except.ok.injEq, Prod.mk.injEq] at hrun
          obtain ⟨rfl, rfl⟩ := hrun
          refine ⟨rfl, hpres.2.1, hhalt1, ?_⟩
          have := hpres.1
          dsimp only
          omega
        · next hnh =>
          exact absurd hhalt1 (by simpa using hnh)

/-- Counterexample to claim C4 as stated: with `halted = true` (after the C2
program halts at cycle count 2), a subsequent invocation of the run loop
before any reset still executes one more pipeline cycle - the cycle count
advances from 2 to 3, so stage execution did occur after `halted` became
true. -/
theorem claim_C4_counterexample :
    c4Sim.state.halted = true ∧ c4Sim.state.cycle_count = 2 ∧
    runResult addALU c4Sim none 2 =
      some { cycle_count := 3
             state := { cycle_count := 3, halted := true, stalled := false } } := by
  decide

/-- Witness for claim C4: invoking the run loop on the halted `c4Sim` yields
no snapshot, leaves the commit counter unchanged, keeps `halted` true, and
advances the cycle count by at most one. -/
theorem claim_C4_witness :
    ([] : List SimulatorState) = [] ∧ c4After.commits = c4Sim.commits ∧
      c4After.state.halted = true ∧
      c4After.state.cycle_count ≤ c4Sim.state.cycle_count + 1 :=
  claim_C4 addALU c4Sim none 5 (by decide) [] c4After (by decide)

/-- Claim C5: register-file operations. `set` stages the immediate data
value as the next accumulator; `get` stages the currently-committed value of
the indexed register as the next accumulator; `put` stages the
currently-committed accumulator as the next value of the indexed register.
Moreover a cycle executing a pure `put` (starting from empty staged slots,
fetch ready) leaves the committed register file untouched throughout the
cycle - so no later stage of the same cycle can observe the written value -
while after the commit phase the indexed register reads the old accumulator,
which a `get` in the following cycle then stages (by the `get` conjunct). -/
theorem claim_C5 (alu : ALU) (s : Simulator) (d : DecodedInstruction) :
    (d.register_file_set = true →
      Simulator.handle_register_operation s d =
        .ok ({ s with register_file :=
          { s.register_file with nextAcc := some d.immediate_data_value } }, true)) ∧
    (d.register_file_set = false → d.register_file_get = true →
      Simulator.handle_register_operation s d =
        .ok ({ s with register_file :=
          { s.register_file with
              nextAcc := some (s.register_file.get_register_value d.register_index) } },
          true)) ∧
    (d.register_file_set = false → d.register_file_get = false → d.register_file_put = true →
      Simulator.handle_register_operation s d =
        .ok ({ s with register_file :=
          { s.register_file with
              nextRegs :=
                (d.register_index, s.register_file.acc) :: s.register_file.nextRegs } },
          true)) ∧
    (StagedEmpty s → fetchedInstruction s = d →
      (s.instruction_memory.request_fetch
        s.program_counter.get_current_instruction_address).fetch_ready = true →
      d.halt_instruction = false → d.alu_instruction = false →
      d.register_file_instruction = true → d.register_file_set = false →
      d.register_file_get = false → d.register_file_put = true →
      d.memory_instruction = false →
      ∀ s', Simulator.execute_cycle alu s = .ok s' →
        s'.register_file.regs = s.register_file.regs ∧
        s'.register_file.acc = s.register_file.acc ∧
        (Simulator.update_module_states s').register_file.get_register_value
          d.register_index = s.register_file.acc) := by
  refine ⟨?_, ?_, ?_, ?_⟩
  · intro h1
    simp [Simulator.handle_register_operation, h1, RegisterFileState.set_next_acc_value]
  · intro h1 h2
    simp [Simulator.handle_register_operation, h1, h2, RegisterFileState.set_next_acc_value]
  · intro h1 h2 h3
    simp [Simulator.handle_register_operation, h1, h2, h3,
      RegisterFileState.set_next_register_value, RegisterFileState.get_acc_value]
  · intro hse hfd hready hhalt halu hrf hset hget hput hmem s' hrun
    obtain ⟨hna, hnr, hns, hnp⟩ := hse
    unfold fetchedInstruction at hfd
    unfold Simulator.execute_cycle at hrun
    split at hrun
    next s1 hf =>
      unfold Simulator.handle_fetch_stage at hf
      dsimp only at hf
      rw [hready] at hf
      simp at hf
    next s1 hf =>
      unfold Simulator.handle_fetch_stage at hf
      dsimp only at hf
      rw [hready] at hf
      simp only [Bool.not_true, Bool.false_eq_true, if_false, Prod.mk.injEq] at hf
      obtain ⟨rfl, -⟩ := hf
      split at hrun
      next s2 hd =>
        unfold Simulator.handle_decode_stage at hd
        dsimp only at hd
        rw [hfd, hhalt] at hd
        simp at hd
      next s2 d2 hd =>
        unfold Simulator.handle_decode_stage at hd
        dsimp only at hd
        rw [hfd, hhalt] at hd
        simp only [Bool.false_eq_true, if_false, Prod.mk.injEq, Option.some.injEq] at hd
        obtain ⟨rfl, rfl⟩ := hd
        split at hrun
        next e hex =>
          simp [Simulator.handle_execute_stage, halu, hrf,
            Simulator.handle_register_operation, hset, hget, hput] at hex
        next s3 hex =>
          simp [Simulator.handle_execute_stage, halu, hrf,
            Simulator.handle_register_operation, hset, hget, hput] at hex
        next s3 hex =>
          simp only [Simulator.handle_execute_stage, halu, hrf,
            Simulator.handle_register_operation, hset, hget, hput, Bool.false_eq_true,
            if_false, if_true, Except.ok.injEq, Prod.mk.injEq, and_true] at hex
          subst hex
          split at hrun
          next e hm =>
            simp [Simulator.handle_memory_stage, hmem] at hm
          next s4 hm =>
            simp [Simulator.handle_memory_stage, hmem] at hm
          next s4 hm =>
            simp only [Simulator.handle_memory_stage, hmem, Bool.not_false, if_true,
              Except.ok.injEq, Prod.mk.injEq, and_true] at hm
            subst hm
            rw [Except.ok.injEq] at hrun
            subst hrun
            refine ⟨?_, ?_, ?_⟩
            · rw [(update_program_counter_fields _ d).2.2.1]
              simp [RegisterFileState.set_next_register_value]
            · rw [(update_program_counter_fields _ d).2.2.1]
              simp [RegisterFileState.set_next_register_value]
            · rw [Simulator.update_module_states]
              dsimp only
              rw [(update_program_counter_fields _ d).2.2.1]
              simp [RegisterFileState.set_next_register_value,
                RegisterFileState.get_acc_value, RegisterFileState.update_state,
                RegisterFileState.get_register_value, hna, hnr, hns, List.lookup]

/-- Witness for claim C5: executing the `put` cycle leaves the committed
register file unchanged within the cycle, and after the commit phase
register 2 reads the old accumulator value 9. -/
theorem claim_C5_witness :
    (okOr (Simulator.execute_cycle addALU c5Sim)).register_file.regs =
      c5Sim.register_file.regs ∧
    (okOr (Simulator.execute_cycle addALU c5Sim)).register_file.acc =
      c5Sim.register_file.acc ∧
    (Simulator.update_module_states
        (okOr (Simulator.execute_cycle addALU c5Sim))).register_file.get_register_value
      c5Put.register_index = c5Sim.register_file.acc :=
  (claim_C5 addALU c5Sim c5Put).2.2.2 (by decide) (by decide) (by decide) rfl rfl rfl rfl rfl
    rfl rfl (okOr (Simulator.execute_cycle addALU c5Sim)) (by decide)

/-- Claim C6: for every decoded ALU instruction, operand B is the immediate
data value when the ALU-immediate flag is set and otherwise the
currently-committed register-file value at the given register index; the
execute stage invokes the ALU on (committed accumulator, operand B, function
code) and stages - without committing anything - the result as the next
accumulator and the flags as the next status register value. -/
theorem claim_C6 (alu : ALU) (s : Simulator) (d : DecodedInstruction)
    (h : d.alu_instruction = true) :
    Simulator.get_alu_operand_b s d =
      (if d.alu_immediate_instruction = true then d.immediate_data_value
       else s.register_file.get_register_value d.register_index) ∧
    Simulator.handle_execute_stage alu s d =
      .ok ({ s with register_file :=
        { s.register_file with
            nextAcc := some (alu s.register_file.acc (Simulator.get_alu_operand_b s d)
              d.alu_function).result
            nextStatus := some
              { signed_overflow :=
                  (alu s.register_file.acc (Simulator.get_alu_operand_b s d)
                    d.alu_function).signed_overflow
                carry :=
                  (alu s.register_file.acc (Simulator.get_alu_operand_b s d)
                    d.alu_function).carry_flag } } }, true) := by
  refine ⟨rfl, ?_⟩
  simp [Simulator.handle_execute_stage, h, Simulator.execute_alu_operation,
    RegisterFileState.set_next_acc_value, RegisterFileState.set_next_status_register_value,
    RegisterFileState.get_acc_value]

/-- Witness for claim C6: an ALU-immediate instruction with operand 7 under
the addition ALU stages accumulator 7 and cleared flags, committing
nothing. -/
theorem claim_C6_witness :
    Simulator.handle_execute_stage addALU c2Sim c6Instr =
      .ok ({ c2Sim with register_file :=
        { c2Sim.register_file with
            nextAcc := some 7
            nextStatus := some { signed_overflow := false, carry := false } } }, true) :=
  ((claim_C6 addALU c2Sim c6Instr rfl).2).trans (by decide)

/-- Claim C7: the PC-update stage, followed by the commit phase with the
stall latch clear, commits: the immediate address for a satisfied branch;
the incremented PC (wrapping at the address width) for an unsatisfied
branch; `(PC + immediate address) mod 2 ^ ADDRESS_WIDTH` for an
immediate-relative jump; `(PC + IMAR) mod 2 ^ ADDRESS_WIDTH` for a
register-relative jump; the IMAR value itself for a register-absolute jump;
and the incremented PC for every other instruction.  Branch conditions are
evaluated against the currently-committed status register. -/
theorem claim_C7 (s : Simulator) (d : DecodedInstruction)
    (hstall : s.program_counter.stall = false) :
    (d.branch_instruction = true →
      evalBranchCondition d.branch_condition s.register_file.status = true →
      (Simulator.update_module_states
          (Simulator.update_program_counter s d)).program_counter.pc =
        d.immediate_address_value) ∧
    (d.branch_instruction = true →
      evalBranchCondition d.branch_condition s.register_file.status = false →
      (Simulator.update_module_states
          (Simulator.update_program_counter s d)).program_counter.pc =
        (s.program_counter.pc + 1) % 2 ^ ADDRESS_WIDTH) ∧
    (d.branch_instruction = false → d.jump_instruction = true → d.immediate_jump = true →
      (Simulator.update_module_states
          (Simulator.update_program_counter s d)).program_counter.pc =
        (s.program_counter.pc + d.immediate_address_value) % 2 ^ ADDRESS_WIDTH) ∧
    (d.branch_instruction = false → d.jump_instruction = true → d.immediate_jump = false →
      d.relative_jump = true →
      (Simulator.update_module_states
          (Simulator.update_program_counter s d)).program_counter.pc =
        (s.program_counter.pc + s.register_file.get_imar_value) % 2 ^ ADDRESS_WIDTH) ∧
    (d.branch_instruction = false → d.jump_instruction = true → d.immediate_jump = false →
      d.relative_jump = false →
      (Simulator.update_module_states
          (Simulator.update_program_counter s d)).program_counter.pc =
        s.register_file.get_imar_value) ∧
    (d.branch_instruction = false → d.jump_instruction = false →
      (Simulator.update_module_states
          (Simulator.update_program_counter s d)).program_counter.pc =
        (s.program_counter.pc + 1) % 2 ^ ADDRESS_WIDTH) := by
  refine ⟨?_, ?_, ?_, ?_, ?_, ?_⟩ <;> intro h1 h2 <;>
    first
      | (intro h3 h4
         simp [Simulator.update_program_counter, Simulator.handle_jump_instruction,
           Simulator.update_module_states, ProgramCounterState.update_state,
           ProgramCounterState.conditionally_branch, ProgramCounterState.increment,
           ProgramCounterState.jump_relative, ProgramCounterState.jump_absolute,
           RegisterFileState.get_status_register_value, h1, h2, h3, h4, hstall])
      | (intro h3
         simp [Simulator.update_program_counter, Simulator.handle_jump_instruction,
           Simulator.update_module_states, ProgramCounterState.update_state,
           ProgramCounterState.conditionally_branch, ProgramCounterState.increment,
           ProgramCounterState.jump_relative, ProgramCounterState.jump_absolute,
           RegisterFileState.get_status_register_value, h1, h2, h3, hstall])
      | simp [Simulator.update_program_counter, Simulator.handle_jump_instruction,
          Simulator.update_module_states, ProgramCounterState.update_state,
          ProgramCounterState.conditionally_branch, ProgramCounterState.increment,
          ProgramCounterState.jump_relative, ProgramCounterState.jump_absolute,
          RegisterFileState.get_status_register_value, h1, h2, hstall]

/-- Witness for claim C7: a register-relative jump from PC 3 with IMAR 20
commits PC (3 + 20) mod 2 ^ 8 = 23. -/
theorem claim_C7_witness :
    (Simulator.update_module_states
        (Simulator.update_program_counter c7Sim c7Jump)).program_counter.pc = 23 :=
  (((claim_C7 c7Sim c7Jump rfl).2.2.2.1) rfl rfl rfl rfl).trans (by decide)

/-- Claim C8: a decoded register-file instruction whose sub-op is none of
set/get/put, or a memory instruction whose sub-op is neither load nor store,
makes the corresponding stage raise the fatal internal-consistency error,
and such an error from a cycle propagates unchanged through the run loop and
`run_until_halt` to the caller - no recovery is attempted. -/
theorem claim_C8 (alu : ALU) (s : Simulator) (d : DecodedInstruction) (nc : Option Nat)
    (fuel : Nat) :
    (d.register_file_set = false → d.register_file_get = false → d.register_file_put = false →
      Simulator.handle_register_operation s d = .error .invalidRegisterOperation) ∧
    (d.memory_instruction = true → d.memory_load = false → d.memory_store = false →
      Simulator.handle_memory_stage s d = .error .invalidMemoryOperation) ∧
    (∀ e, Simulator.execute_cycle alu s = .error e → boundReached nc 0 = false →
      Simulator.run alu s nc (fuel + 1) = some (.error e) ∧
      Simulator.run_until_halt alu s nc (fuel + 1) = some (.error (.fault e))) := by
  refine ⟨?_, ?_, ?_⟩
  · intro h1 h2 h3
    simp [Simulator.handle_register_operation, h1, h2, h3]
  · intro h1 h2 h3
    simp [Simulator.handle_memory_stage, h1, h2, h3]
  · intro e he hb
    have h1 : Simulator.run alu s nc (fuel + 1) = some (.error e) := by
      unfold Simulator.run
      rw [Simulator.run_aux]
      rw [hb]
      simp [he]
    refine ⟨h1, ?_⟩
    unfold Simulator.run_until_halt
    rw [h1]

/-- Witness for claim C8: the unrecognized sub-ops raise the fatal errors,
and the memory fault of the first cycle surfaces through `run` and
`run_until_halt`. -/
theorem claim_C8_witness :
    Simulator.handle_register_operation c8Sim c8Instr = .error .invalidRegisterOperation ∧
    Simulator.handle_memory_stage c8Sim c8Instr = .error .invalidMemoryOperation ∧
    Simulator.run addALU c8Sim none 1 = some (.error .invalidMemoryOperation) ∧
    Simulator.run_until_halt addALU c8Sim none 1 =
      some (.error (.fault .invalidMemoryOperation)) := by
  have h := claim_C8 addALU c8Sim c8Instr none 0
  exact ⟨h.1 rfl rfl rfl, h.2.1 rfl rfl rfl,
    (h.2.2 .invalidMemoryOperation (by decide) rfl).1,
    (h.2.2 .invalidMemoryOperation (by decide) rfl).2⟩

/-- Claim C9: stall idempotence across memory-stall retries, for every
memory instruction - load or store.  For a cycle whose fetched decoded
instruction is a memory instruction (category-exclusive, so neither an ALU
nor a register-file instruction), starting from empty staged slots with a
zero-latency instruction memory and a ready fetch, when its memory stage is
not ready this attempt (a load whose read is not ready, or a store whose
write is not complete): the execute stage stages nothing - indeed for such
an instruction it passes every state through unchanged, so each of the N+1
attempts stages the identical (empty) set of register values - the cycle
ends stalled with the register file untouched, and after the commit phase
the committed register file, the program counter, the staged slots, the
instruction-memory latency, the fetched instruction and the fetch readiness
are all exactly as at the start of the attempt, so every hypothesis holds
again at the next attempt and the argument iterates for all N stalls. -/
theorem claim_C9 (alu : ALU) (s : Simulator) (d : DecodedInstruction)
    (h1 : StagedEmpty s) (hlat : s.instruction_memory.latency = 0)
    (hfd : fetchedInstruction s = d)
    (hready : (s.instruction_memory.request_fetch
      s.program_counter.get_current_instruction_address).fetch_ready = true)
    (hhalt : d.halt_instruction = false) (halu : d.alu_instruction = false)
    (hrf : d.register_file_instruction = false) (hmem : d.memory_instruction = true)
    (hstallmem :
      (d.memory_load = true ∧
        (s.data_memory.request_load s.register_file.get_dmar_value).load_ready = false) ∨
      (d.memory_load = false ∧ d.memory_store = true ∧
        (s.data_memory.request_store s.register_file.get_dmar_value
          s.register_file.get_acc_value).store_complete = false)) :
    (∀ t : Simulator, Simulator.handle_execute_stage alu t d = .ok (t, true)) ∧
    ∀ s', Simulator.execute_cycle alu s = .ok s' →
      s'.state.stalled = true ∧
      s'.register_file = s.register_file ∧
      (Simulator.update_module_states s').register_file = s.register_file ∧
      (Simulator.update_module_states s').program_counter.pc = s.program_counter.pc ∧
      StagedEmpty (Simulator.update_module_states s') ∧
      (Simulator.update_module_states s').instruction_memory.latency = 0 ∧
      fetchedInstruction (Simulator.update_module_states s') = d ∧
      ((Simulator.update_module_states s').instruction_memory.request_fetch
        (Simulator.update_module_states
          s').program_counter.get_current_instruction_address).fetch_ready = true := by
  refine ⟨fun t => handle_execute_stage_passthrough alu t d halu hrf, ?_⟩
  intro s' hrun
  obtain ⟨hna, hnr, hns, hnp⟩ := h1
  unfold Simulator.execute_cycle at hrun
  split at hrun
  next s1 hf =>
    unfold Simulator.handle_fetch_stage at hf
    dsimp only at hf
    rw [hready] at hf
    simp at hf
  next s1 hf =>
    unfold Simulator.handle_fetch_stage at hf
    dsimp only at hf
    rw [hready] at hf
    simp only [Bool.not_true, Bool.false_eq_true, if_false, Prod.mk.injEq] at hf
    obtain ⟨rfl, -⟩ := hf
    split at hrun
    next s2 hd =>
      unfold Simulator.handle_decode_stage at hd
      dsimp only at hd
      rw [show (s.instruction_memory.request_fetch
          s.program_counter.get_current_instruction_address).get_fetch_result = d from hfd,
        hhalt] at hd
      simp at hd
    next s2 d2 hd =>
      unfold Simulator.handle_decode_stage at hd
      dsimp only at hd
      rw [show (s.instruction_memory.request_fetch
          s.program_counter.get_current_instruction_address).get_fetch_result = d from hfd,
        hhalt] at hd
      simp only [Bool.false_eq_true, if_false, Prod.mk.injEq, Option.some.injEq] at hd
      obtain ⟨rfl, rfl⟩ := hd
      split at hrun
      next e hex =>
        rw [handle_execute_stage_passthrough alu _ _ halu hrf] at hex
        simp at hex
      next s3 hex =>
        rw [handle_execute_stage_passthrough alu _ _ halu hrf] at hex
        simp at hex
      next s3 hex =>
        rw [handle_execute_stage_passthrough alu _ _ halu hrf] at hex
        rw [Except.ok.injEq, Prod.mk.injEq] at hex
        obtain ⟨hex, -⟩ := hex
        subst hex
        split at hrun
        next e hm =>
          unfold Simulator.handle_memory_stage Simulator.handle_memory_load
            Simulator.handle_memory_store at hm
          rcases hstallmem with ⟨hload, hnrdy⟩ | ⟨hnload, hstore, hnc⟩
          · simp [hmem, hload, hnrdy] at hm
          · simp [hmem, hnload, hstore, hnc] at hm
        next s4 hm =>
          unfold Simulator.handle_memory_stage Simulator.handle_memory_load
            Simulator.handle_memory_store at hm
          rcases hstallmem with ⟨hload, hnrdy⟩ | ⟨hnload, hstore, hnc⟩
          · simp only [hmem, hload, hnrdy] at hm
            simp only [Bool.not_true, Bool.not_false, Bool.false_eq_true, Bool.true_eq_false,
              if_true, if_false, Except.ok.injEq, Prod.mk.injEq, and_true] at hm
            subst hm
            rw [Except.ok.injEq] at hrun
            subst hrun
            have hrfm := InstructionMemoryState.request_fetch_mem s.instruction_memory
              s.program_counter.get_current_instruction_address
            have himu2 : (s.instruction_memory.request_fetch
                s.program_counter.get_current_instruction_address).update_state =
                { mem := s.instruction_memory.mem
                  latency := 0
                  pendingAddr := none
                  counter := (s.instruction_memory.request_fetch
                    s.program_counter.get_current_instruction_address).counter } := by
              rw [InstructionMemoryState.update_state_of_ready _ hready]
              simp [hrfm.1, hrfm.2, hlat]
            refine ⟨rfl, rfl, ?_, ?_, ?_, ?_, ?_, ?_⟩
            · simp only [Simulator.update_module_states]
              exact RegisterFileState.update_state_of_empty _ hna hnr hns
            · simp [Simulator.update_module_states, ProgramCounterState.update_state,
                ProgramCounterState.set_stall]
            · refine ⟨?_, ?_, ?_, ?_⟩ <;>
                simp [Simulator.update_module_states, RegisterFileState.update_state,
                  ProgramCounterState.update_state, ProgramCounterState.set_stall, hnp]
            · simp only [Simulator.update_module_states]
              rw [himu2]
            · rw [fetchedInstruction_eq]
              simp only [Simulator.update_module_states]
              rw [himu2]
              simp [ProgramCounterState.update_state, ProgramCounterState.set_stall]
              simpa using (fetchedInstruction_eq s).symm.trans hfd
            · simp only [Simulator.update_module_states]
              rw [himu2]
              simp [InstructionMemoryState.request_fetch, InstructionMemoryState.fetch_ready,
                ProgramCounterState.update_state, ProgramCounterState.set_stall]
          · simp only [hmem, hnload, hstore, hnc] at hm
            simp only [Bool.not_true, Bool.not_false, Bool.false_eq_true, Bool.true_eq_false,
              if_true, if_false, Except.ok.injEq, Prod.mk.injEq, and_true] at hm
            subst hm
            rw [Except.ok.injEq] at hrun
            subst hrun
            have hrfm := InstructionMemoryState.request_fetch_mem s.instruction_memory
              s.program_counter.get_current_instruction_address
            have himu2 : (s.instruction_memory.request_fetch
                s.program_counter.get_current_instruction_address).update_state =
                { mem := s.instruction_memory.mem
                  latency := 0
                  pendingAddr := none
                  counter := (s.instruction_memory.request_fetch
                    s.program_counter.get_current_instruction_address).counter } := by
              rw [InstructionMemoryState.update_state_of_ready _ hready]
              simp [hrfm.1, hrfm.2, hlat]
            refine ⟨rfl, rfl, ?_, ?_, ?_, ?_, ?_, ?_⟩
            · simp only [Simulator.update_module_states]
              exact RegisterFileState.update_state_of_empty _ hna hnr hns
            · simp [Simulator.update_module_states, ProgramCounterState.update_state,
                ProgramCounterState.set_stall]
            · refine ⟨?_, ?_, ?_, ?_⟩ <;>
                simp [Simulator.update_module_states, RegisterFileState.update_state,
                  ProgramCounterState.update_state, ProgramCounterState.set_stall, hnp]
            · simp only [Simulator.update_module_states]
              rw [himu2]
            · rw [fetchedInstruction_eq]
              simp only [Simulator.update_module_states]
              rw [himu2]
              simp [ProgramCounterState.update_state, ProgramCounterState.set_stall]
              simpa using (fetchedInstruction_eq s).symm.trans hfd
            · simp only [Simulator.update_module_states]
              rw [himu2]
              simp [InstructionMemoryState.request_fetch, InstructionMemoryState.fetch_ready,
                ProgramCounterState.update_state, ProgramCounterState.set_stall]
        next s4 hm =>
          unfold Simulator.handle_memory_stage Simulator.handle_memory_load
            Simulator.handle_memory_store at hm
          rcases hstallmem with ⟨hload, hnrdy⟩ | ⟨hnload, hstore, hnc⟩
          · simp [hmem, hload, hnrdy] at hm
          · simp [hmem, hnload, hstore, hnc] at hm

/-- Witness for claim C9: both a load (with the data memory's read not yet
ready) and a store (with its write not yet complete) stall on their first
attempt, stage nothing, and re-establish every hypothesis for the next
attempt. -/
theorem claim_C9_witness :
    (Simulator.handle_execute_stage addALU c9Sim c9Load = .ok (c9Sim, true) ∧
      ((okOr (Simulator.execute_cycle addALU c9Sim)).state.stalled = true ∧
        (okOr (Simulator.execute_cycle addALU c9Sim)).register_file =
          c9Sim.register_file ∧
        (Simulator.update_module_states
          (okOr (Simulator.execute_cycle addALU c9Sim))).register_file =
            c9Sim.register_file ∧
        (Simulator.update_module_states
          (okOr (Simulator.execute_cycle addALU c9Sim))).program_counter.pc =
            c9Sim.program_counter.pc ∧
        StagedEmpty (Simulator.update_module_states
          (okOr (Simulator.execute_cycle addALU c9Sim))) ∧
        (Simulator.update_module_states
          (okOr (Simulator.execute_cycle addALU c9Sim))).instruction_memory.latency = 0 ∧
        fetchedInstruction (Simulator.update_module_states
          (okOr (Simulator.execute_cycle addALU c9Sim))) = c9Load ∧
        ((Simulator.update_module_states
            (okOr (Simulator.execute_cycle addALU c9Sim))).instruction_memory.request_fetch
          (Simulator.update_module_states
            (okOr (Simulator.execute_cycle
              addALU c9Sim))).program_counter.get_current_instruction_address).fetch_ready =
          true)) ∧
    (Simulator.handle_execute_stage addALU c9StoreSim c9Store = .ok (c9StoreSim, true) ∧
      ((okOr (Simulator.execute_cycle addALU c9StoreSim)).state.stalled = true ∧
        (okOr (Simulator.execute_cycle addALU c9StoreSim)).register_file =
          c9StoreSim.register_file ∧
        (Simulator.update_module_states
          (okOr (Simulator.execute_cycle addALU c9StoreSim))).register_file =
            c9StoreSim.register_file ∧
        (Simulator.update_module_states
          (okOr (Simulator.execute_cycle addALU c9StoreSim))).program_counter.pc =
            c9StoreSim.program_counter.pc ∧
        StagedEmpty (Simulator.update_module_states
          (okOr (Simulator.execute_cycle addALU c9StoreSim))) ∧
        (Simulator.update_module_states
          (okOr (Simulator.execute_cycle
            addALU c9StoreSim))).instruction_memory.latency = 0 ∧
        fetchedInstruction (Simulator.update_module_states
          (okOr (Simulator.execute_cycle addALU c9StoreSim))) = c9Store ∧
        ((Simulator.update_module_states
            (okOr (Simulator.execute_cycle
              addALU c9StoreSim))).instruction_memory.request_fetch
          (Simulator.update_module_states
            (okOr (Simulator.execute_cycle
              addALU
                c9StoreSim))).program_counter.get_current_instruction_address).fetch_ready =
          true)) :=
  have h := claim_C9 addALU c9Sim c9Load (by decide) (by decide) (by decide) (by decide)
    rfl rfl rfl rfl (Or.inl (by decide))
  have h2 := claim_C9 addALU c9StoreSim c9Store (by decide) (by decide) (by decide)
    (by decide) rfl rfl rfl rfl (Or.inr (by decide))
  ⟨⟨h.1 c9Sim, h.2 (okOr (Simulator.execute_cycle addALU c9Sim)) (by decide)⟩,
    ⟨h2.1 c9StoreSim,
      h2.2 (okOr (Simulator.execute_cycle addALU c9StoreSim)) (by decide)⟩⟩

/-- Claim C10: calling `run_until_halt` with a cycle bound of 0 executes no
pipeline cycle and performs no commit (the simulator is returned exactly as
it was, commit counter included), and since `halted` is false it raises the
watchdog timeout carrying the current cycle count. -/
theorem claim_C10 (alu : ALU) (s : Simulator) (fuel : Nat)
    (h : s.state.halted = false) :
    Simulator.run alu s (some 0) (fuel + 1) = some (.ok ([], s)) ∧
    Simulator.run_until_halt alu s (some 0) (fuel + 1) =
      some (.error (.timeout s.state.cycle_count)) := by
  have h1 : Simulator.run alu s (some 0) (fuel + 1) = some (.ok ([], s)) := by
    unfold Simulator.run
    rw [Simulator.run_aux]
    simp [boundReached]
  refine ⟨h1, ?_⟩
  unfold Simulator.run_until_halt
  rw [h1]
  simp [boundReached, h]

/-- Witness for claim C10: immediately after reset the cycle count is 0, so
`run_until_halt` with bound 0 raises the timeout carrying 0. -/
theorem claim_C10_witness :
    Simulator.run addALU c2Sim (some 0) 1 = some (.ok ([], c2Sim)) ∧
    Simulator.run_until_halt addALU c2Sim (some 0) 1 =
      some (.error (.timeout 0)) := by
  have h := claim_C10 addALU c2Sim 0 (by decide)
  exact ⟨h.1, h.2.trans (by decide)⟩

end TurtleSim
